import Mathlib

/-!
# Verification of the Blueprint meta-build generator

A shallow embedding, in Lean 4, of the parts of the Blueprint build system
relevant to the claims under review:

* the property unpacker (`unpackProperties` and friends) — the Go file
  `unpack.go` is not among the provided sources (only its test file
  `unpack_test.go` is), so the unpacker is modelled from the specification's
  normative rules (§4.D) and checked against the expectations recorded in the
  test file;
* the `builddir` at-most-once guard of the singleton context (`setBuildDir`);
* the bootstrap module/singleton build-action generators from
  `bootstrap/bootstrap.go`, which are embedded directly from the source.

Machine strings are Lean `String`s, Go slices are Lean `List`s, Go `*T`
pointers used as optionals are `Option T`, and fallible operations return
`Option`/`Except`.
-/

namespace Blueprint

/-! ## Positions and the property AST (spec §3, §4.B)

A `Pos` is the (line, column) part of a source position; the file name is
constant within one unpack and is omitted.  `Value` is the tagged variant over
strings, booleans, lists and maps (module bodies); `PropList` is the ordered
property list of a module body or nested map, each property carrying its
name, its position and its value. -/

structure Pos where
  line : Nat
  col : Nat
deriving DecidableEq, Repr

mutual

inductive Value where
  | vstr (s : String)
  | vbool (b : Bool)
  | vlist (xs : List String)
  | vmap (ps : PropList)
deriving DecidableEq, Repr

inductive PropList where
  | nil
  | cons (name : String) (pos : Pos) (v : Value) (rest : PropList)
deriving DecidableEq, Repr

end

/-! ## Container schemas (spec §3 `PropertyStruct`, §4.D)

A host-supplied property container is described by a `FieldList`: scalar
fields (of bool, string, string-list kind, each either plain or
pointer/optional, and possibly tagged `blueprint:"mutated"`), nested
sub-containers, and anonymous embedded sub-containers whose fields are
exposed at the parent level. -/

inductive FieldKind where
  | kBool
  | kString
  | kList
  | kBoolPtr
  | kStringPtr
deriving DecidableEq, Repr

mutual

inductive Field where
  | scalar (name : String) (kind : FieldKind) (mutated : Bool)
  | nested (name : String) (inner : FieldList)
  | embedded (inner : FieldList)
deriving DecidableEq, Repr

inductive FieldList where
  | nil
  | cons (f : Field) (rest : FieldList)
deriving DecidableEq, Repr

end

/-! Runtime values held by a container, mirroring the schema shape.  A
pointer-typed scalar field holds an `Option`, distinguishing "not set"
(`none`) from "set to the zero value" (`some ""` / `some false`). -/

mutual

inductive FVal where
  | fBool (b : Bool)
  | fString (s : String)
  | fList (xs : List String)
  | fBoolPtr (b : Option Bool)
  | fStringPtr (s : Option String)
  | fGroup (vs : FValList)
deriving DecidableEq, Repr

inductive FValList where
  | vnil
  | vcons (v : FVal) (rest : FValList)
deriving DecidableEq, Repr

end

/-- The zero value of a scalar field kind (Go zero values; pointers are nil). -/
def emptyScalar : FieldKind → FVal
  | .kBool => .fBool false
  | .kString => .fString ""
  | .kList => .fList []
  | .kBoolPtr => .fBoolPtr none
  | .kStringPtr => .fStringPtr none

mutual

/-- The all-zero container value for a field. -/
def emptyField : Field → FVal
  | .scalar _ kind _ => emptyScalar kind
  | .nested _ inner => .fGroup (emptyFields inner)
  | .embedded inner => .fGroup (emptyFields inner)

/-- The all-zero container value for a field list. -/
def emptyFields : FieldList → FValList
  | .nil => .vnil
  | .cons f rest => .vcons (emptyField f) (emptyFields rest)

end

/-! ## Name matching (spec §4.D rule 1)

Modelled from the spec: "A property name `foo_bar` maps to container field
`FooBar`; names are otherwise lowercased with `_`-separated lower-case
externally and upper-camel internally.  Case-insensitive match required."
A property name and a field name match when they agree after dropping
underscores and ignoring case.  Dotted paths are compared whole; the dot
separator is unaffected by the normalization. -/

def canon (s : String) : List Char :=
  (s.data.map Char.toLower).filter (fun c => c ≠ '_')

def nameMatch (p f : String) : Bool :=
  decide (canon p = canon f)

/-- The upper-camel container-field form of a snake_case property name, on
character lists: drop each underscore and capitalize the letter following it
(the leading letter too). -/
def camelChars : Bool → List Char → List Char
  | _, [] => []
  | up, c :: rest =>
    if c = '_' then camelChars true rest
    else if up then c.toUpper :: camelChars false rest
    else c :: camelChars false rest

/-- The upper-camel container-field name for a snake_case property name
(spec §4.D rule 1: property `foo_bar` maps to container field `FooBar`). -/
def camelOfSnake (s : String) : String :=
  ⟨camelChars true s.data⟩

/-- Whether a value is a map (module-body) value; scalar values contribute
no children to the property map. -/
def isMapValue : Value → Bool
  | .vmap _ => true
  | _ => false

/-! ## Flattening a module body into a property map (spec §4.D rules 8–9)

Modelled from the spec: every property of the body is recorded under its
dotted path, in source order; a second property with the same path at the
same level is an error citing both positions ("Duplicate property within a
single module body is an error citing both positions"), and the first wins
(the duplicate is skipped). -/

structure Entry where
  key : String
  pos : Pos
  val : Value
deriving DecidableEq, Repr

/-- Error message for a duplicated property (matches `unpack_test.go`). -/
def dupMsg (key : String) : String :=
  "property \"" ++ key ++ "\" already defined"

/-- Marker error placed at the first occurrence of a duplicated property
(matches `unpack_test.go`). -/
def prevDefMsg : String :=
  "<-- previous definition here"

mutual

/-- Add the properties `ps`, whose dotted-path prefix is `pre`, to the
accumulated (entries, errors) state `st`, recursing into map values. -/
def addProps (pre : String) (st : List Entry × List (Pos × String)) :
    PropList → List Entry × List (Pos × String)
  | .nil => st
  | .cons n pos v rest =>
    let key := pre ++ n
    match st.1.find? (fun e => e.key == key) with
    | some first =>
      addProps pre (st.1, st.2 ++ [(pos, dupMsg key), (first.pos, prevDefMsg)]) rest
    | none =>
      addProps pre (addValue key (st.1 ++ [⟨key, pos, v⟩], st.2) v) rest

/-- Add the children of a map value stored under dotted path `key`. -/
def addValue (key : String) (st : List Entry × List (Pos × String)) :
    Value → List Entry × List (Pos × String)
  | .vmap ps => addProps (key ++ ".") st ps
  | _ => st

end

/-- Flatten a module body into its property map (in source order) and the
list of duplicate-property errors. -/
def buildPropertyMap (props : PropList) : List Entry × List (Pos × String) :=
  addProps "" ([], []) props

/-! ## Unpacking the container fields (spec §4.D rules 1–8) -/

/-- Find the property entry matching a field's dotted path, if any
(case-insensitive, underscore-insensitive; first match wins). -/
def findProp (entries : List Entry) (path : String) : Option Entry :=
  entries.find? (fun e => nameMatch e.key path)

/-- Kind of a dynamic value, for type-mismatch messages. -/
def valueKindName : Value → String
  | .vstr _ => "string"
  | .vbool _ => "bool"
  | .vlist _ => "list"
  | .vmap _ => "map"

/-- Kind of a container field, for type-mismatch messages. -/
def fieldKindName : FieldKind → String
  | .kBool => "bool"
  | .kString => "string"
  | .kList => "list"
  | .kBoolPtr => "bool"
  | .kStringPtr => "string"

/-- Modelled from the spec (rule 11): "Type mismatch is an error at property
position with both expected and actual kind." -/
def typeMismatchMsg (key expected actual : String) : String :=
  "can't assign " ++ actual ++ " value to " ++ expected ++ " property \"" ++ key ++ "\""

/-- Error for a build-file assignment to a `blueprint:"mutated"` field
(message as required by `unpack_test.go`). -/
def mutatedMsg (key : String) : String :=
  "mutated field " ++ key ++ " cannot be set in a Blueprint file"

/-- Convert a dynamic value to a scalar field value of the given kind. -/
def convertValue : FieldKind → Value → Option FVal
  | .kBool, .vbool b => some (.fBool b)
  | .kBoolPtr, .vbool b => some (.fBoolPtr (some b))
  | .kString, .vstr s => some (.fString s)
  | .kStringPtr, .vstr s => some (.fStringPtr (some s))
  | .kList, .vlist xs => some (.fList xs)
  | _, _ => none

mutual

/-- Unpack one field whose dotted-path prefix is `pre`, producing the field's
value, the property keys consumed, and the errors raised. -/
def unpackField (entries : List Entry) (pre : String) :
    Field → FVal × List String × List (Pos × String)
  | .scalar name kind mtd =>
    match findProp entries (pre ++ name) with
    | none => (emptyScalar kind, [], [])
    | some e =>
      if mtd then
        (emptyScalar kind, [e.key], [(e.pos, mutatedMsg e.key)])
      else
        match convertValue kind e.val with
        | some fv => (fv, [e.key], [])
        | none => (emptyScalar kind, [e.key],
            [(e.pos, typeMismatchMsg e.key (fieldKindName kind) (valueKindName e.val))])
  | .nested name inner =>
    match findProp entries (pre ++ name) with
    | none =>
      let sub := unpackFields entries (pre ++ name ++ ".") inner
      (.fGroup sub.1, sub.2.1, sub.2.2)
    | some e =>
      match e.val with
      | .vmap _ =>
        let sub := unpackFields entries (pre ++ name ++ ".") inner
        (.fGroup sub.1, e.key :: sub.2.1, sub.2.2)
      | v => (.fGroup (emptyFields inner), [e.key],
          [(e.pos, typeMismatchMsg e.key "map" (valueKindName v))])
  | .embedded inner =>
    let sub := unpackFields entries pre inner
    (.fGroup sub.1, sub.2.1, sub.2.2)

/-- Unpack a field list (in field order), concatenating consumed keys and
errors. -/
def unpackFields (entries : List Entry) (pre : String) :
    FieldList → FValList × List String × List (Pos × String)
  | .nil => (.vnil, [], [])
  | .cons f rest =>
    let a := unpackField entries pre f
    let b := unpackFields entries pre rest
    (.vcons a.1 b.1, a.2.1 ++ b.2.1, a.2.2 ++ b.2.2)

end

/-- Error for a property that matched no container field
(message as in the spec §4.D rule 8 and `unpack_test.go`). -/
def unrecognizedMsg (key : String) : String :=
  "unrecognized property \"" ++ key ++ "\""

structure UnpackResult where
  vals : FValList
  errs : List (Pos × String)
deriving DecidableEq, Repr

/-- Modelled from the spec (§4.D): `UnpackProperties` flattens the module
body into a property map (reporting duplicates), populates the container
fields from the matching properties (reporting mutated-field assignments and
type mismatches), and reports every property consumed by no field as
unrecognized, with its dotted path.  Errors are accumulated; unpacking
proceeds past recoverable errors. -/
def unpackProperties (props : PropList) (schema : FieldList) : UnpackResult :=
  let built := buildPropertyMap props
  let walked := unpackFields built.1 "" schema
  let unrec := (built.1.filter (fun e => !(walked.2.1.contains e.key))).map
    (fun e => (e.pos, unrecognizedMsg e.key))
  ⟨walked.1, built.2 ++ walked.2.2 ++ unrec⟩

/-! ## The `builddir` at-most-once guard (spec §4.H, `singleton_ctx.go`)

`singletonContext.SetBuildDir` parses its value as a Ninja string and
delegates to `Context.setBuildDir` on the one `Context` shared by every
singleton of the generation pass.  Modelled from the spec: the body of
`Context.setBuildDir` lives in `context.go`, which is not among the provided
sources; its contract is fixed by the doc comment of
`SingletonContext.SetBuildDir` in `singleton_ctx.go` ("This value can be set
at most one time for a single build.  Setting it multiple times (even across
different singletons) will result in a panic") and by the spec's invariant
"`builddir` is set at most once per manifest".  A panic is modelled as
`none`. -/

structure BuildDirState where
  buildDir : Option String
deriving DecidableEq, Repr

/-- Modelled from the spec: `Context.setBuildDir` records the top-level
`builddir` Ninja variable; a second call panics (`none`). -/
def setBuildDir (st : BuildDirState) (value : String) : Option BuildDirState :=
  match st.buildDir with
  | some _ => none
  | none => some ⟨some value⟩

/-- Run a sequence of `SetBuildDir` calls (across all singletons of one
generation pass) against the shared context state; `none` as soon as any
call panics. -/
def runSetBuildDirCalls (st : BuildDirState) : List String → Option BuildDirState
  | [] => some st
  | v :: vs =>
    match setBuildDir st v with
    | none => none
    | some st' => runSetBuildDirCalls st' vs

/-! ## The bootstrap package (`bootstrap/bootstrap.go`)

Embedded directly from the source.  `filepath.Join` on cleaned,
non-empty, slash-free-prefix components is string concatenation with `/`;
`filepath.FromSlash` is the identity on the reference (Unix) platform. -/

def joinPath (a b : String) : String := a ++ "/" ++ b

def bootstrapDir : String := ".bootstrap"

def binDir : String := joinPath bootstrapDir "bin"

def minibpFile : String := joinPath binDir "minibp"

def docsDir : String := joinPath bootstrapDir "docs"

/-- `strconv.ParseBool` from the Go standard library: the exact set of
accepted literals, anything else is an error (`none`). -/
def parseBool : String → Option Bool
  | "1" | "t" | "T" | "true" | "TRUE" | "True" => some true
  | "0" | "f" | "F" | "FALSE" | "false" | "False" => some false
  | _ => none

/-- `ninjaHasMultipass`: true if Ninja will perform multiple passes that can
regenerate the build manifest.  `envValue` is the value of the
`BLUEPRINT_NINJA_HAS_MULTIPASS` environment variable (`""` when unset, as
`os.Getenv` returns); a parse error yields `false`. -/
def ninjaHasMultipass (envValue : String) : Bool :=
  match parseBool envValue with
  | none => false
  | some b => b

/-- The `runChildNinja` variable function: empty when the executor performs
multi-pass regeneration itself, otherwise an extra Ninja invocation. -/
def runChildNinja (envValue : String) : String :=
  if ninjaHasMultipass envValue then "" else " && ninja"

/-- The command of the `rebootstrap` rule, `"$bootstrapCmd -i $in$runChildNinja"`,
with the `$runChildNinja` variable expanded. -/
def rebootstrapCommand (envValue : String) : String :=
  "$bootstrapCmd -i $in" ++ runChildNinja envValue

/-- The bootstrap `Config` fields the embedded functions consult. -/
structure Config where
  generatingBootstrapper : Bool
  runGoTests : Bool
  topLevelBlueprintsFile : String
deriving DecidableEq, Repr

/-- The Ninja rule of a build edge.  The statically declared rules carry no
parameters here; rules declared locally through `ctx.Rule` carry their name
and command. -/
inductive NinjaRule where
  | gc
  | link
  | goTestMain
  | test
  | cp
  | bootstrapRule
  | rebootstrapRule
  | phonyRule
  | builtinPhony
  | localRule (name : String) (command : String)
deriving DecidableEq, Repr

/-- `blueprint.BuildParams`, restricted to the fields the bootstrap package
sets.  `args` is an association list in insertion order. -/
structure BuildParams where
  rule : NinjaRule
  outputs : List String
  inputs : List String
  implicits : List String
  orderOnly : List String
  args : List (String × String)
deriving DecidableEq, Repr

/-- The per-module context data the bootstrap generators consult:
`ctx.ModuleName()`, `ctx.ModuleDir()`, and the `(GoPkgRoot, GoPackageTarget)`
pairs of the dependencies visited by
`ctx.VisitDepsDepthFirstIf(isGoPackageProducer, …)`, in visit order. -/
structure ModuleCtx where
  moduleName : String
  moduleDir : String
  depProducers : List (String × String)
deriving DecidableEq, Repr

/-- `pathtools.PrefixPaths`: join the prefix onto every path. -/
def prefixPaths (paths : List String) (pre : String) : List String :=
  paths.map (fun p => joinPath pre p)

/-- `packageRoot`: the module-specific package root directory path. -/
def packageRoot (ctx : ModuleCtx) : String :=
  joinPath (joinPath bootstrapDir ctx.moduleName) "pkg"

/-- `testRoot`: the module-specific package root used for building tests. -/
def testRoot (ctx : ModuleCtx) : String :=
  joinPath (joinPath bootstrapDir ctx.moduleName) "test"

/-- `moduleSrcDir`: the directory all source paths are relative to. -/
def moduleSrcDir (ctx : ModuleCtx) : String :=
  joinPath "$srcDir" ctx.moduleDir

/-- `moduleObjDir`: the module-specific object directory path. -/
def moduleObjDir (ctx : ModuleCtx) : String :=
  joinPath (joinPath bootstrapDir ctx.moduleName) "obj"

/-- `filepath.Dir` for the cleaned slash-separated paths used here: drop the
last path component. -/
def dirPath (s : String) : String :=
  let parts := s.splitOn "/"
  if parts.length ≤ 1 then "." else String.intercalate "/" parts.dropLast

/-- `buildGoPackage`: the single `gc` edge compiling a Go package. -/
def buildGoPackage (ctx : ModuleCtx) (pkgRoot pkgPath archiveFile : String)
    (srcs orderDeps : List String) : BuildParams :=
  let srcFiles := prefixPaths srcs (moduleSrcDir ctx)
  let incFlags := ctx.depProducers.map (fun d => "-I " ++ d.1)
  let deps := "$gcCmd" :: ctx.depProducers.map (fun d => d.2)
  let gcArgs := [("pkgPath", pkgPath)] ++
    (if incFlags.isEmpty then [] else [("incFlags", String.intercalate " " incFlags)])
  { rule := .gc, outputs := [archiveFile], inputs := srcFiles,
    implicits := deps, orderOnly := orderDeps, args := gcArgs }

/-- `buildGoTest`: the edges building and running a package's tests, and the
order-only dep (`test.passed`) they export; nothing when there are no test
sources. -/
def buildGoTest (ctx : ModuleCtx) (testRootDir testPkgArchive pkgPath : String)
    (srcs testSrcs : List String) : List BuildParams × List String :=
  match testSrcs with
  | [] => ([], [])
  | t0 :: ts =>
    let testFiles := prefixPaths (t0 :: ts) (moduleSrcDir ctx)
    let mainFile := joinPath testRootDir "test.go"
    let testArchive := joinPath testRootDir "test.a"
    let testFile := joinPath testRootDir "test"
    let testPassed := joinPath testRootDir "test.passed"
    let pkgEdge := buildGoPackage ctx testRootDir pkgPath testPkgArchive
      (srcs ++ (t0 :: ts)) []
    let libDirFlags := ("-L " ++ testRootDir) :: ctx.depProducers.map (fun d => "-L " ++ d.1)
    ([pkgEdge,
      { rule := .goTestMain, outputs := [mainFile], inputs := testFiles,
        implicits := ["$goTestMainCmd"], orderOnly := [], args := [("pkg", pkgPath)] },
      { rule := .gc, outputs := [testArchive], inputs := [mainFile],
        implicits := [testPkgArchive], orderOnly := [],
        args := [("pkgPath", "main"), ("incFlags", "-I " ++ testRootDir)] },
      { rule := .link, outputs := [testFile], inputs := [testArchive],
        implicits := ["$linkCmd"], orderOnly := [],
        args := [("libDirFlags", String.intercalate " " libDirFlags)] },
      { rule := .test, outputs := [testPassed], inputs := [testFile],
        implicits := [], orderOnly := [],
        args := [("pkg", pkgPath), ("pkgSrcDir", dirPath (joinPath (moduleSrcDir ctx) t0))] }],
     [testPassed])

/-- `phonyGoTarget`: the phony edge standing in for a Go target when not
generating the bootstrapper, plus built-in phony edges for every source and
intermediate file. -/
def phonyGoTarget (ctx : ModuleCtx) (target : String)
    (srcs intermediates : List String) : List BuildParams :=
  let depTargets := ctx.depProducers.map (fun d => d.2)
  let srcs2 := prefixPaths srcs (joinPath "$srcDir" ctx.moduleDir)
  ({ rule := .phonyRule, outputs := [target], inputs := srcs2,
     implicits := depTargets, orderOnly := [], args := [] } : BuildParams) ::
  (srcs2.map (fun src =>
    ({ rule := .builtinPhony, outputs := [src], inputs := [],
       implicits := [], orderOnly := [], args := [] } : BuildParams)) ++
   intermediates.map (fun i =>
    ({ rule := .builtinPhony, outputs := [i], inputs := [],
       implicits := [], orderOnly := [], args := [] } : BuildParams)))

/-- The `goPackage` module: its properties and the fields
`GenerateBuildActions` assigns. -/
structure GoPackage where
  pkgPath : String
  srcs : List String
  testSrcs : List String
  pkgRoot : String
  archiveFile : String
  testArchiveFile : String
deriving DecidableEq, Repr

/-- Result of a module's `GenerateBuildActions`: the updated module, the
build edges emitted through `ctx.Build`, and the errors reported through
`ctx.ModuleErrorf`. -/
structure ModuleActionResult where
  module : GoPackage
  edges : List BuildParams
  errs : List String
deriving DecidableEq, Repr

/-- `goPackage.GenerateBuildActions`, embedded from `bootstrap.go`: an empty
`pkgPath` is a module error and an immediate return; otherwise the output
paths are computed and either real compile edges (when generating the
bootstrapper) or phony stand-ins are emitted. -/
def goPackageGenerateBuildActions (g : GoPackage) (config : Config)
    (ctx : ModuleCtx) : ModuleActionResult :=
  let name := ctx.moduleName
  if g.pkgPath = "" then
    { module := g, edges := [],
      errs := ["module " ++ name ++ " did not specify a valid pkgPath"] }
  else
    let pkgRoot := packageRoot ctx
    let archiveFile := joinPath pkgRoot (g.pkgPath ++ ".a")
    let g1 := { g with pkgRoot := pkgRoot, archiveFile := archiveFile }
    let g2 := if g.testSrcs.length > 0 && config.runGoTests then
        { g1 with testArchiveFile := joinPath (testRoot ctx) (g.pkgPath ++ ".a") }
      else g1
    if config.generatingBootstrapper then
      let built := if config.runGoTests then
          buildGoTest ctx (testRoot ctx) g2.testArchiveFile g.pkgPath g.srcs g.testSrcs
        else ([], [])
      let pkgEdge := buildGoPackage ctx g2.pkgRoot g.pkgPath g2.archiveFile g.srcs built.2
      { module := g2, edges := built.1 ++ [pkgEdge], errs := [] }
    else
      let testPhony := if g.testSrcs.length > 0 && config.runGoTests then
          phonyGoTarget ctx g2.testArchiveFile g.testSrcs []
        else []
      { module := g2, edges := testPhony ++ phonyGoTarget ctx g2.archiveFile g.srcs [],
        errs := [] }

/-- The data of a `goBinary` module the bootstrap singleton consults: its
name (via `ctx.ModuleName`) and its `PrimaryBuilder` property. -/
structure GoBinaryInfo where
  name : String
  primaryBuilder : Bool
deriving DecidableEq, Repr

/-- `filepath.Base` for the paths used here: the last slash-separated
component ("." for the empty path). -/
def baseName (s : String) : String :=
  if s = "" then "." else (s.splitOn "/").getLast!

/-- The primary-builder switch of `singleton.GenerateBuildActions`: no
marked module selects minibp with the extra `-p` flag, exactly one selects
that module's name, more than one is an error naming each marked module. -/
def selectPrimaryBuilder (primaryBuilders : List GoBinaryInfo) :
    Except (List String) (String × String) :=
  match primaryBuilders with
  | [] => .ok ("minibp", "-p")
  | [b] => .ok (b.name, "")
  | bs => .error ("multiple primary builder modules present:" ::
      bs.map (fun b => "<-- module " ++ b.name))

/-- Result of the bootstrap singleton's `GenerateBuildActions`: edges,
errors, and the `builddir` it set (if any). -/
structure SingletonResult where
  edges : List BuildParams
  errs : List String
  buildDirSet : Option String
deriving DecidableEq, Repr

/-- `singleton.GenerateBuildActions`, embedded from `bootstrap.go`.
`binaries` are the `goBinary` modules in visit order; `goTestTargets` the
values of `GoTestTarget()` for the test-producer modules in visit order
(consulted only on the non-bootstrapper path). -/
def singletonGenerateBuildActions (config : Config)
    (binaries : List GoBinaryInfo) (goTestTargets : List String) : SingletonResult :=
  let rebootstrapDeps := binaries.map (fun b => joinPath binDir b.name)
  let primaryBuilders := binaries.filter (fun b => b.primaryBuilder)
  match selectPrimaryBuilder primaryBuilders with
  | .error errs => { edges := [], errs := errs, buildDirSet := none }
  | .ok sel =>
    let primaryBuilderName := sel.1
    let primaryBuilderFile := joinPath binDir primaryBuilderName
    let primaryBuilderExtraFlags :=
      if config.runGoTests then sel.2 ++ " -t" else sel.2
    let topLevelBlueprints :=
      joinPath "$srcDir" (baseName config.topLevelBlueprintsFile)
    let mainNinjaFile := joinPath bootstrapDir "main.ninja.in"
    let mainNinjaDepFile := mainNinjaFile ++ ".d"
    let bootstrapNinjaFile := joinPath bootstrapDir "bootstrap.ninja.in"
    let docsFile := joinPath docsDir (primaryBuilderName ++ ".html")
    let rebootstrapDeps := rebootstrapDeps ++ [docsFile]
    if config.generatingBootstrapper then
      let bigbpDocs := NinjaRule.localRule "bigbpDocs"
        (primaryBuilderFile ++ " " ++ primaryBuilderExtraFlags ++ " --docs $out " ++
          topLevelBlueprints)
      let bigbp := NinjaRule.localRule "bigbp"
        (primaryBuilderFile ++ " " ++ primaryBuilderExtraFlags ++ " -d " ++
          mainNinjaDepFile ++ " -m $bootstrapManifest -o $out $in")
      let minibpRule := NinjaRule.localRule "minibp"
        (minibpFile ++ " $runTests -c $checkFile -m $bootstrapManifest -d $out.d -o $out $in")
      let notAFile := joinPath bootstrapDir "notAFile"
      let minibpArgs := [("checkFile", "$bootstrapManifest")] ++
        (if config.runGoTests then [("runTests", "-t")] else [])
      { edges := [
          { rule := bigbpDocs, outputs := [docsFile], inputs := [],
            implicits := [primaryBuilderFile], orderOnly := [], args := [] },
          { rule := bigbp, outputs := [mainNinjaFile], inputs := [topLevelBlueprints],
            implicits := rebootstrapDeps, orderOnly := [], args := [] },
          { rule := .builtinPhony, outputs := [notAFile], inputs := [],
            implicits := [], orderOnly := [], args := [] },
          { rule := .bootstrapRule, outputs := ["build.ninja"], inputs := [mainNinjaFile],
            implicits := ["$bootstrapCmd", notAFile, bootstrapNinjaFile],
            orderOnly := [], args := [] },
          { rule := minibpRule, outputs := [bootstrapNinjaFile],
            inputs := [topLevelBlueprints], implicits := [minibpFile],
            orderOnly := [], args := minibpArgs }],
        errs := [], buildDirSet := some bootstrapDir }
    else
      let rebootstrapDeps := rebootstrapDeps ++ goTestTargets.filter (fun t => t ≠ "")
      let buildNinjaDeps := ["$bootstrapCmd", mainNinjaFile] ++ rebootstrapDeps
      let base : List BuildParams := [
          { rule := .rebootstrapRule, outputs := ["build.ninja"],
            inputs := ["$bootstrapManifest"], implicits := buildNinjaDeps,
            orderOnly := [], args := [] },
          { rule := .phonyRule, outputs := [mainNinjaFile],
            inputs := [topLevelBlueprints], implicits := [], orderOnly := [],
            args := [("depfile", mainNinjaDepFile)] },
          { rule := .phonyRule, outputs := [docsFile], inputs := [],
            implicits := [primaryBuilderFile], orderOnly := [], args := [] },
          { rule := .cp, outputs := ["$bootstrapManifest"],
            inputs := [bootstrapNinjaFile], implicits := [], orderOnly := [],
            args := [("generator", "true")] }]
      let extra : List BuildParams :=
        if primaryBuilderName = "minibp" then
          [{ rule := .cp, outputs := [joinPath "bin" primaryBuilderName],
             inputs := [primaryBuilderFile], implicits := [], orderOnly := [],
             args := [] }]
        else []
      { edges := base ++ extra, errs := [], buildDirSet := none }

/-! ## Theorems

First a few helper lemmas about characters, `canon` and the property map;
then one theorem per claim. -/

theorem toNat_ofNat_valid {n : Nat} (hv : n.isValidChar) : (Char.ofNat n).toNat = n := by
  rw [Char.ofNat, dif_pos hv]
  simp only [Char.ofNatAux, Char.toNat]
  rfl

theorem toLower_toUpper (c : Char) : (c.toUpper).toLower = c.toLower := by
  unfold Char.toUpper Char.toLower
  by_cases h : c.toNat ≥ 97 ∧ c.toNat ≤ 122
  · rw [if_pos h]
    have hv : (c.toNat - 32).isValidChar := by
      unfold Nat.isValidChar
      left; omega
    rw [toNat_ofNat_valid hv]
    rw [if_pos (by omega : c.toNat - 32 ≥ 65 ∧ c.toNat - 32 ≤ 90)]
    rw [if_neg (by omega : ¬ (c.toNat ≥ 65 ∧ c.toNat ≤ 90))]
    have he : c.toNat - 32 + 32 = c.toNat := by omega
    rw [he, Char.ofNat_toNat]
  · rw [if_neg h]

theorem canon_camelChars (l : List Char) (b : Bool) :
    ((camelChars b l).map Char.toLower).filter (fun c => c ≠ '_') =
      (l.map Char.toLower).filter (fun c => c ≠ '_') := by
  induction l generalizing b with
  | nil => rfl
  | cons c rest ih =>
    by_cases hc : c = '_'
    · subst hc
      rw [camelChars, if_pos rfl]
      rw [ih true]
      simp [show Char.toLower '_' = '_' from rfl]
    · rw [camelChars, if_neg hc]
      cases b with
      | true =>
        simp only [if_true, List.map_cons, toLower_toUpper, List.filter_cons, ih false]
      | false =>
        simp only [Bool.false_eq_true, if_false, List.map_cons, List.filter_cons, ih false]

theorem canon_camelOfSnake (s : String) : canon (camelOfSnake s) = canon s := by
  rw [canon, canon, camelOfSnake]
  exact canon_camelChars s.data true

theorem nameMatch_camelOfSnake (s : String) : nameMatch s (camelOfSnake s) = true := by
  rw [nameMatch, canon_camelOfSnake]
  simp

theorem canon_append (a b : String) : canon (a ++ b) = canon a ++ canon b := by
  simp [canon, String.data_append]

theorem canon_dot (a b : String) : canon (a ++ "." ++ b) = canon a ++ '.' :: canon b := by
  rw [canon_append, canon_append, show canon "." = ['.'] by decide]
  simp

theorem nameMatch_iff {p f : String} : nameMatch p f = true ↔ canon p = canon f := by
  simp [nameMatch]

theorem nameMatch_dot_right {a b : String} (c : String) (h : nameMatch a b = true) :
    nameMatch a (b ++ "." ++ c) = false := by
  rw [nameMatch_iff] at h
  apply decide_eq_false
  rw [canon_dot, h]
  intro heq
  have := congrArg List.length heq
  simp at this

theorem nameMatch_dot_dot {a b c d : String} (h1 : nameMatch a b = true)
    (h2 : nameMatch c d = true) : nameMatch (a ++ "." ++ c) (b ++ "." ++ d) = true := by
  rw [nameMatch_iff] at h1 h2 ⊢
  rw [canon_dot, canon_dot, h1, h2]

theorem string_self_beq_dot (a b : String) : (a == a ++ "." ++ b) = false := by
  rw [beq_eq_false_iff_ne]
  intro h
  have := congrArg String.length h
  rw [String.length_append, String.length_append,
    show ".".length = 1 from rfl] at this
  omega

theorem string_dot_beq_self (a b : String) : (a ++ "." ++ b == a) = false := by
  rw [beq_eq_false_iff_ne]
  intro h
  have := congrArg String.length h
  rw [String.length_append, String.length_append,
    show ".".length = 1 from rfl] at this
  omega

theorem string_dot_ne_self (a b : String) : a ++ "." ++ b ≠ a := by
  intro h
  have := congrArg String.length h
  rw [String.length_append, String.length_append,
    show ".".length = 1 from rfl] at this
  omega

theorem string_self_ne_dot (a b : String) : a ≠ a ++ "." ++ b :=
  fun h => string_dot_ne_self a b h.symm

theorem addValue_scalar {v : Value} (key : String)
    (st : List Entry × List (Pos × String)) (h : isMapValue v = false) :
    addValue key st v = st := by
  cases v with
  | vmap ps => simp [isMapValue] at h
  | vstr s => rfl
  | vbool b => rfl
  | vlist xs => rfl

/-- Claim C1: the top-level `builddir` Ninja variable is set at most once per
manifest — once the shared context records a value, any further
`SetBuildDir` call (from any singleton of the generation pass) panics
instead of overwriting it, so a sequence of `SetBuildDir` calls completes
without a panic exactly when it contains at most one call. -/
theorem setBuildDir_at_most_once :
    (∀ (st : BuildDirState) (v d : String),
       st.buildDir = some d → setBuildDir st v = none) ∧
    (∀ calls : List String,
       (runSetBuildDirCalls ⟨none⟩ calls).isSome ↔ calls.length ≤ 1) := by
  constructor
  · intro st v d h
    simp [setBuildDir, h]
  · intro calls
    match calls with
    | [] => simp [runSetBuildDirCalls]
    | [v] => simp [runSetBuildDirCalls, setBuildDir]
    | v :: w :: rest => simp [runSetBuildDirCalls, setBuildDir]

/-- Witness for `setBuildDir_at_most_once` at concrete inputs. -/
theorem setBuildDir_at_most_once_witness :
    setBuildDir ⟨some ".bootstrap"⟩ "out" = none ∧
    ¬ (runSetBuildDirCalls ⟨none⟩ [".bootstrap", "out"]).isSome := by
  refine ⟨setBuildDir_at_most_once.1 ⟨some ".bootstrap"⟩ "out" ".bootstrap" rfl, ?_⟩
  intro h
  have := (setBuildDir_at_most_once.2 [".bootstrap", "out"]).mp h
  simp at this

/-- Claim C8: `ninjaHasMultipass` is true exactly when the value of the
`BLUEPRINT_NINJA_HAS_MULTIPASS` environment variable parses as boolean true
(an unset variable reads as `""`; unparsable values yield false), the
`runChildNinja` variable is empty exactly when it is true, and hence the
expanded `rebootstrap` rule command re-invokes ninja exactly when the
executor lacks multi-pass regeneration. -/
theorem ninjaHasMultipass_spec :
    (∀ env : String, ninjaHasMultipass env = true ↔ parseBool env = some true) ∧
    (∀ env : String, parseBool env = none → ninjaHasMultipass env = false) ∧
    ninjaHasMultipass "" = false ∧
    (∀ env : String,
       runChildNinja env = if ninjaHasMultipass env then "" else " && ninja") ∧
    (∀ env : String, rebootstrapCommand env =
       if ninjaHasMultipass env then "$bootstrapCmd -i $in"
       else "$bootstrapCmd -i $in && ninja") := by
  refine ⟨?_, ?_, by decide, fun env => rfl, ?_⟩
  · intro env
    rw [ninjaHasMultipass]
    cases h : parseBool env with
    | none => simp
    | some b => cases b <;> simp
  · intro env h
    rw [ninjaHasMultipass, h]
  · intro env
    rw [rebootstrapCommand, runChildNinja]
    cases h : ninjaHasMultipass env <;> simp

/-- Witness for `ninjaHasMultipass_spec` at concrete inputs. -/
theorem ninjaHasMultipass_spec_witness :
    ninjaHasMultipass "true" = true ∧ ninjaHasMultipass "bogus" = false := by
  exact ⟨(ninjaHasMultipass_spec.1 "true").mpr rfl,
    ninjaHasMultipass_spec.2.1 "bogus" rfl⟩

/-- Claim C9: a `goPackage` module whose `pkgPath` property is empty gets the
module error `module <name> did not specify a valid pkgPath` and
`GenerateBuildActions` returns immediately: no build edges are emitted and
the module's `pkgRoot`, `archiveFile` and `testArchiveFile` fields are left
exactly as they were (i.e. unset, for a freshly constructed module). -/
theorem goPackage_empty_pkgPath :
    ∀ (g : GoPackage) (config : Config) (ctx : ModuleCtx), g.pkgPath = "" →
      goPackageGenerateBuildActions g config ctx =
        { module := g, edges := [],
          errs := ["module " ++ ctx.moduleName ++ " did not specify a valid pkgPath"] } := by
  intro g config ctx h
  rw [goPackageGenerateBuildActions]
  simp [h]

/-- Witness for `goPackage_empty_pkgPath` at concrete inputs. -/
theorem goPackage_empty_pkgPath_witness :
    goPackageGenerateBuildActions ⟨"", ["a.go"], [], "", "", ""⟩
        ⟨true, false, "Blueprints"⟩ ⟨"blueprint", "", []⟩ =
      { module := ⟨"", ["a.go"], [], "", "", ""⟩, edges := [],
        errs := ["module blueprint did not specify a valid pkgPath"] } := by
  exact goPackage_empty_pkgPath ⟨"", ["a.go"], [], "", "", ""⟩
    ⟨true, false, "Blueprints"⟩ ⟨"blueprint", "", []⟩ rfl

/-- Claim C10: the bootstrap singleton selects the primary builder as the switch
in `singleton.GenerateBuildActions` does: no `goBinary` marked
`PrimaryBuilder` selects `"minibp"` with extra flag `"-p"`, exactly one
selects that module's name (no extra flag), and more than one reports
`multiple primary builder modules present:` followed by one
`<-- module <name>` error per marked module, returning without emitting any
build edge (and without setting `builddir`). -/
theorem singleton_primary_builder :
    (∀ bins : List GoBinaryInfo, bins.filter (fun b => b.primaryBuilder) = [] →
       selectPrimaryBuilder (bins.filter (fun b => b.primaryBuilder)) =
         .ok ("minibp", "-p")) ∧
    (∀ (bins : List GoBinaryInfo) (b : GoBinaryInfo),
       bins.filter (fun b => b.primaryBuilder) = [b] →
       selectPrimaryBuilder (bins.filter (fun b => b.primaryBuilder)) =
         .ok (b.name, "")) ∧
    (∀ (config : Config) (bins : List GoBinaryInfo) (tts : List String)
       (b1 b2 : GoBinaryInfo) (rest : List GoBinaryInfo),
       bins.filter (fun b => b.primaryBuilder) = b1 :: b2 :: rest →
       singletonGenerateBuildActions config bins tts =
         { edges := [],
           errs := "multiple primary builder modules present:" ::
             (b1 :: b2 :: rest).map (fun b => "<-- module " ++ b.name),
           buildDirSet := none }) := by
  refine ⟨fun bins h => by rw [h]; rfl, fun bins b h => by rw [h]; rfl, ?_⟩
  intro config bins tts b1 b2 rest h
  rw [singletonGenerateBuildActions, h]
  rfl

/-- Witness for `singleton_primary_builder` at concrete inputs. -/
theorem singleton_primary_builder_witness :
    singletonGenerateBuildActions ⟨true, false, "Blueprints"⟩
        [⟨"bpA", true⟩, ⟨"x", false⟩, ⟨"bpB", true⟩] [] =
      { edges := [],
        errs := ["multiple primary builder modules present:",
          "<-- module bpA", "<-- module bpB"],
        buildDirSet := none } := by
  exact singleton_primary_builder.2.2 ⟨true, false, "Blueprints"⟩
    [⟨"bpA", true⟩, ⟨"x", false⟩, ⟨"bpB", true⟩] [] ⟨"bpA", true⟩ ⟨"bpB", true⟩ []
    (by decide)

/-- Claim C2: a property named `foo_bar` is mapped to the container field
named `FooBar`: any property whose name matches a field name binds its value
to that field (with no errors), every snake_case name matches its upper-camel
form (`camelOfSnake`), `camelOfSnake "foo_bar" = "FooBar"`, and the matching
relation is case-insensitive (invariant under lowercasing of either name). -/
theorem unpack_name_mapping :
    (∀ (p f : String) (pos : Pos) (s : String), nameMatch p f = true →
       unpackProperties (.cons p pos (.vstr s) .nil)
         (.cons (.scalar f .kString false) .nil) =
       ⟨.vcons (.fString s) .vnil, []⟩) ∧
    (∀ s : String, nameMatch s (camelOfSnake s) = true) ∧
    camelOfSnake "foo_bar" = "FooBar" ∧
    (∀ p p' f f' : String,
       p.data.map Char.toLower = p'.data.map Char.toLower →
       f.data.map Char.toLower = f'.data.map Char.toLower →
       nameMatch p f = nameMatch p' f') := by
  refine ⟨?_, nameMatch_camelOfSnake, by decide, ?_⟩
  · intro p f pos s h
    simp [unpackProperties, buildPropertyMap, addProps, addValue, unpackFields,
      unpackField, findProp, List.find?, h, convertValue, List.contains]
  · intro p p' f f' hp hf
    simp only [nameMatch, canon, hp, hf]

/-- Witness for `unpack_name_mapping` at concrete inputs. -/
theorem unpack_name_mapping_witness :
    unpackProperties (.cons "foo_bar" ⟨2, 9⟩ (.vstr "x") .nil)
      (.cons (.scalar "FooBar" .kString false) .nil) =
    ⟨.vcons (.fString "x") .vnil, []⟩ :=
  unpack_name_mapping.1 "foo_bar" "FooBar" ⟨2, 9⟩ "x" (by decide)

/-- Claim C3: a pointer-typed scalar field is left nil (`none`) when its
property is absent, and set to a non-nil pointer to the zero value when the
property is explicitly assigned the zero value (`""` / `false`), so "not
set" is distinguishable from "set to zero"; non-pointer scalar fields are
left at the zero value when unset. -/
theorem unpack_nullable_scalars :
    (∀ (f : String) (m : Bool),
       unpackProperties .nil (.cons (.scalar f .kStringPtr m) .nil) =
         ⟨.vcons (.fStringPtr none) .vnil, []⟩) ∧
    (∀ (f : String) (m : Bool),
       unpackProperties .nil (.cons (.scalar f .kBoolPtr m) .nil) =
         ⟨.vcons (.fBoolPtr none) .vnil, []⟩) ∧
    (∀ (p f : String) (pos : Pos), nameMatch p f = true →
       unpackProperties (.cons p pos (.vstr "") .nil)
         (.cons (.scalar f .kStringPtr false) .nil) =
       ⟨.vcons (.fStringPtr (some "")) .vnil, []⟩) ∧
    (∀ (p f : String) (pos : Pos), nameMatch p f = true →
       unpackProperties (.cons p pos (.vbool false) .nil)
         (.cons (.scalar f .kBoolPtr false) .nil) =
       ⟨.vcons (.fBoolPtr (some false)) .vnil, []⟩) ∧
    (∀ (f : String) (m : Bool),
       unpackProperties .nil (.cons (.scalar f .kString m) .nil) =
         ⟨.vcons (.fString "") .vnil, []⟩) ∧
    (∀ (f : String) (m : Bool),
       unpackProperties .nil (.cons (.scalar f .kBool m) .nil) =
         ⟨.vcons (.fBool false) .vnil, []⟩) ∧
    (FVal.fStringPtr none ≠ FVal.fStringPtr (some "") ∧
     FVal.fBoolPtr none ≠ FVal.fBoolPtr (some false)) := by
  refine ⟨?_, ?_, ?_, ?_, ?_, ?_, by decide⟩
  · intro f m
    simp [unpackProperties, buildPropertyMap, addProps, unpackFields, unpackField,
      findProp, List.find?, emptyScalar]
  · intro f m
    simp [unpackProperties, buildPropertyMap, addProps, unpackFields, unpackField,
      findProp, List.find?, emptyScalar]
  · intro p f pos h
    simp [unpackProperties, buildPropertyMap, addProps, addValue, unpackFields,
      unpackField, findProp, List.find?, h, convertValue, List.contains]
  · intro p f pos h
    simp [unpackProperties, buildPropertyMap, addProps, addValue, unpackFields,
      unpackField, findProp, List.find?, h, convertValue, List.contains]
  · intro f m
    simp [unpackProperties, buildPropertyMap, addProps, unpackFields, unpackField,
      findProp, List.find?, emptyScalar]
  · intro f m
    simp [unpackProperties, buildPropertyMap, addProps, unpackFields, unpackField,
      findProp, List.find?, emptyScalar]

/-- Witness for `unpack_nullable_scalars` at concrete inputs. -/
theorem unpack_nullable_scalars_witness :
    unpackProperties (.cons "blank" ⟨4, 10⟩ (.vstr "") .nil)
      (.cons (.scalar "Blank" .kStringPtr false) .nil) =
    ⟨.vcons (.fStringPtr (some "")) .vnil, []⟩ :=
  unpack_nullable_scalars.2.2.1 "blank" "Blank" ⟨4, 10⟩ (by decide)

/-- Counterexample to claim C4 as stated: with an outer field `S` and an
anonymous embedded sub-container exposing a field of the same name, the
single assignment `s: "abc"` does not bind to the outer field only — the
embedded field is populated with `"abc"` as well (it does not stay at its
zero value `""`), exactly as the `embedded name collision` expectation in
`unpack_test.go` requires. -/
theorem unpack_embedded_collision_cex :
    unpackProperties (.cons "s" ⟨3, 6⟩ (.vstr "abc") .nil)
      (.cons (.scalar "S" .kString false)
        (.cons (.embedded (.cons (.scalar "S" .kString false) .nil)) .nil)) =
    ⟨.vcons (.fString "abc") (.vcons (.fGroup (.vcons (.fString "abc") .vnil)) .vnil), []⟩ ∧
    FVal.fGroup (.vcons (.fString "abc") .vnil) ≠
      FVal.fGroup (.vcons (.fString "") .vnil) := by
  decide

/-- Claim C4 as amended: when a container declares both an outer field and an
anonymous embedded sub-container exposing a field of the same name, a single
property assignment to that name populates both of them with the same value
(deterministically), with no errors. -/
theorem unpack_embedded_collision :
    ∀ (p f : String) (pos : Pos) (s : String), nameMatch p f = true →
      unpackProperties (.cons p pos (.vstr s) .nil)
        (.cons (.scalar f .kString false)
          (.cons (.embedded (.cons (.scalar f .kString false) .nil)) .nil)) =
      ⟨.vcons (.fString s) (.vcons (.fGroup (.vcons (.fString s) .vnil)) .vnil), []⟩ := by
  intro p f pos s h
  simp [unpackProperties, buildPropertyMap, addProps, addValue, unpackFields,
    unpackField, findProp, List.find?, h, convertValue, List.contains]

/-- Witness for `unpack_embedded_collision` at concrete inputs. -/
theorem unpack_embedded_collision_witness :
    unpackProperties (.cons "s" ⟨2, 5⟩ (.vstr "def") .nil)
      (.cons (.scalar "S" .kString false)
        (.cons (.embedded (.cons (.scalar "S" .kString false) .nil)) .nil)) =
    ⟨.vcons (.fString "def") (.vcons (.fGroup (.vcons (.fString "def") .vnil)) .vnil), []⟩ :=
  unpack_embedded_collision "s" "S" ⟨2, 5⟩ "def" (by decide)

/-- Counterexample to claim C5 as stated: at the `mutated` test input of
`unpack_test.go`, the error reported for assigning a `blueprint:"mutated"`
field is `mutated field mutated cannot be set in a Blueprint file` — not the
message `mutated field mutated cannot be set` the claim quotes. -/
theorem unpack_mutated_message_cex :
    (unpackProperties (.cons "mutated" ⟨3, 13⟩ (.vbool true) .nil)
        (.cons (.scalar "Mutated" .kBool true) .nil)).errs =
      [(⟨3, 13⟩, "mutated field mutated cannot be set in a Blueprint file")] ∧
    "mutated field mutated cannot be set in a Blueprint file" ≠
      "mutated field mutated cannot be set" := by
  decide

/-- Claim C5 as amended: an assignment (of a non-map value) to a container
field tagged `blueprint:"mutated"` — directly or inside a nested map — is
reported as an error at the property's position with the message
`mutated field X cannot be set in a Blueprint file`, X being the property's
dotted path, and the field keeps its zero value. -/
theorem unpack_mutated_field :
    (∀ (p f : String) (kind : FieldKind) (pos : Pos) (v : Value),
       isMapValue v = false → nameMatch p f = true →
       unpackProperties (.cons p pos v .nil) (.cons (.scalar f kind true) .nil) =
         ⟨.vcons (emptyScalar kind) .vnil, [(pos, mutatedMsg p)]⟩) ∧
    (∀ (op ofn ip ifn : String) (kind : FieldKind) (p0 p1 : Pos) (v : Value),
       isMapValue v = false → nameMatch op ofn = true → nameMatch ip ifn = true →
       unpackProperties
         (.cons op p0 (.vmap (.cons ip p1 v .nil)) .nil)
         (.cons (.nested ofn (.cons (.scalar ifn kind true) .nil)) .nil) =
       ⟨.vcons (.fGroup (.vcons (emptyScalar kind) .vnil)) .vnil,
        [(p1, mutatedMsg (op ++ "." ++ ip))]⟩) := by
  constructor
  · intro p f kind pos v hv h
    simp [unpackProperties, buildPropertyMap, addProps, addValue_scalar _ _ hv,
      unpackFields, unpackField, findProp, List.find?, h, List.contains]
  · intro op ofn ip ifn kind p0 p1 v hv h1 h2
    have hfalse : nameMatch op (ofn ++ "." ++ ifn) = false := nameMatch_dot_right ifn h1
    have htrue : nameMatch (op ++ "." ++ ip) (ofn ++ "." ++ ifn) = true :=
      nameMatch_dot_dot h1 h2
    simp [unpackProperties, buildPropertyMap, addProps, addValue,
      addValue_scalar _ _ hv, unpackFields, unpackField, findProp, List.find?,
      h1, hfalse, htrue, string_self_beq_dot, string_dot_beq_self, List.contains]

/-- Witness for `unpack_mutated_field` at concrete inputs (the `mutated` and
`nested mutated` test cases of `unpack_test.go`). -/
theorem unpack_mutated_field_witness :
    unpackProperties (.cons "mutated" ⟨3, 13⟩ (.vbool true) .nil)
        (.cons (.scalar "Mutated" .kBool true) .nil) =
      ⟨.vcons (.fBool false) .vnil,
       [(⟨3, 13⟩, mutatedMsg "mutated")]⟩ ∧
    unpackProperties
        (.cons "nested" ⟨3, 12⟩ (.vmap (.cons "mutated" ⟨4, 14⟩ (.vbool true) .nil)) .nil)
        (.cons (.nested "Nested" (.cons (.scalar "Mutated" .kBool true) .nil)) .nil) =
      ⟨.vcons (.fGroup (.vcons (.fBool false) .vnil)) .vnil,
       [(⟨4, 14⟩, mutatedMsg ("nested" ++ "." ++ "mutated"))]⟩ :=
  ⟨unpack_mutated_field.1 "mutated" "Mutated" .kBool ⟨3, 13⟩ (.vbool true)
      (by decide) (by decide),
   unpack_mutated_field.2 "nested" "Nested" "mutated" "Mutated" .kBool ⟨3, 12⟩ ⟨4, 14⟩
      (.vbool true) (by decide) (by decide) (by decide)⟩

/-- Claim C6: a property (with a non-map value) matching no container field
is reported as `unrecognized property "X"` at the property's position, X
being the full dotted path when the property lies inside a nested map (as in
the `missing` and `missing nested` test cases of `unpack_test.go`). -/
theorem unpack_unrecognized_property :
    (∀ (p : String) (pos : Pos) (v : Value), isMapValue v = false →
       unpackProperties (.cons p pos v .nil) .nil =
         ⟨.vnil, [(pos, unrecognizedMsg p)]⟩) ∧
    (∀ (np nf mp : String) (p0 p1 : Pos) (v : Value),
       isMapValue v = false → nameMatch np nf = true →
       unpackProperties
         (.cons np p0 (.vmap (.cons mp p1 v .nil)) .nil)
         (.cons (.nested nf .nil) .nil) =
       ⟨.vcons (.fGroup .vnil) .vnil, [(p1, unrecognizedMsg (np ++ "." ++ mp))]⟩) := by
  constructor
  · intro p pos v hv
    simp [unpackProperties, buildPropertyMap, addProps, addValue_scalar _ _ hv,
      unpackFields, List.contains]
  · intro np nf mp p0 p1 v hv h
    simp [unpackProperties, buildPropertyMap, addProps, addValue,
      addValue_scalar _ _ hv, unpackFields, unpackField, findProp, List.find?, h,
      string_self_beq_dot, string_dot_beq_self, string_dot_ne_self,
      string_self_ne_dot, List.contains]

/-- Witness for `unpack_unrecognized_property` at concrete inputs (the
`missing` and `missing nested` test cases of `unpack_test.go`). -/
theorem unpack_unrecognized_property_witness :
    unpackProperties (.cons "missing" ⟨3, 13⟩ (.vbool true) .nil) .nil =
      ⟨.vnil, [(⟨3, 13⟩, unrecognizedMsg "missing")]⟩ ∧
    unpackProperties
        (.cons "nested" ⟨3, 12⟩ (.vmap (.cons "missing" ⟨4, 14⟩ (.vbool true) .nil)) .nil)
        (.cons (.nested "Nested" .nil) .nil) =
      ⟨.vcons (.fGroup .vnil) .vnil,
       [(⟨4, 14⟩, unrecognizedMsg ("nested" ++ "." ++ "missing"))]⟩ :=
  ⟨unpack_unrecognized_property.1 "missing" ⟨3, 13⟩ (.vbool true) (by decide),
   unpack_unrecognized_property.2 "nested" "Nested" "missing" ⟨3, 12⟩ ⟨4, 14⟩
      (.vbool true) (by decide) (by decide)⟩

/-- Claim C7: two properties of the same name at the same level — top level
or inside the same nested map — produce, for any container schema, an error
at the second occurrence stating the property is already defined and an
error at the first occurrence marking the previous definition. -/
theorem unpack_duplicate_property :
    (∀ (schema : FieldList) (n : String) (p1 p2 : Pos) (v1 v2 : Value),
       isMapValue v1 = false → isMapValue v2 = false →
       (p2, dupMsg n) ∈
           (unpackProperties (.cons n p1 v1 (.cons n p2 v2 .nil)) schema).errs ∧
       (p1, prevDefMsg) ∈
           (unpackProperties (.cons n p1 v1 (.cons n p2 v2 .nil)) schema).errs) ∧
    (∀ (schema : FieldList) (op n : String) (p0 p1 p2 : Pos) (v1 v2 : Value),
       isMapValue v1 = false → isMapValue v2 = false →
       (p2, dupMsg (op ++ "." ++ n)) ∈
           (unpackProperties
             (.cons op p0 (.vmap (.cons n p1 v1 (.cons n p2 v2 .nil))) .nil)
             schema).errs ∧
       (p1, prevDefMsg) ∈
           (unpackProperties
             (.cons op p0 (.vmap (.cons n p1 v1 (.cons n p2 v2 .nil))) .nil)
             schema).errs) := by
  constructor
  · intro schema n p1 p2 v1 v2 hv1 hv2
    simp only [unpackProperties, buildPropertyMap, addProps,
      addValue_scalar _ _ hv1, addValue_scalar _ _ hv2, List.find?,
      String.empty_append]
    simp [List.find?, List.mem_append]
  · intro schema op n p0 p1 p2 v1 v2 hv1 hv2
    simp only [unpackProperties, buildPropertyMap, addProps, addValue,
      addValue_scalar _ _ hv1, addValue_scalar _ _ hv2, List.find?,
      String.empty_append]
    simp [List.find?, string_self_beq_dot, string_dot_beq_self, List.mem_append]

/-- Witness for `unpack_duplicate_property` at concrete inputs (the
`duplicate` and `nested duplicate` test cases of `unpack_test.go`). -/
theorem unpack_duplicate_property_witness :
    ((⟨4, 12⟩, dupMsg "exists") ∈
       (unpackProperties
         (.cons "exists" ⟨3, 12⟩ (.vbool true) (.cons "exists" ⟨4, 12⟩ (.vbool true) .nil))
         (.cons (.scalar "Exists" .kBool false) .nil)).errs ∧
     (⟨3, 12⟩, prevDefMsg) ∈
       (unpackProperties
         (.cons "exists" ⟨3, 12⟩ (.vbool true) (.cons "exists" ⟨4, 12⟩ (.vbool true) .nil))
         (.cons (.scalar "Exists" .kBool false) .nil)).errs) ∧
    ((⟨5, 13⟩, dupMsg ("nested" ++ "." ++ "exists")) ∈
       (unpackProperties
         (.cons "nested" ⟨3, 12⟩
           (.vmap (.cons "exists" ⟨4, 13⟩ (.vbool true)
             (.cons "exists" ⟨5, 13⟩ (.vbool true) .nil))) .nil)
         (.cons (.nested "Nested" (.cons (.scalar "Exists" .kBool false) .nil)) .nil)).errs ∧
     (⟨4, 13⟩, prevDefMsg) ∈
       (unpackProperties
         (.cons "nested" ⟨3, 12⟩
           (.vmap (.cons "exists" ⟨4, 13⟩ (.vbool true)
             (.cons "exists" ⟨5, 13⟩ (.vbool true) .nil))) .nil)
         (.cons (.nested "Nested" (.cons (.scalar "Exists" .kBool false) .nil)) .nil)).errs) :=
  ⟨unpack_duplicate_property.1 (.cons (.scalar "Exists" .kBool false) .nil)
      "exists" ⟨3, 12⟩ ⟨4, 12⟩ (.vbool true) (.vbool true) (by decide) (by decide),
   unpack_duplicate_property.2
      (.cons (.nested "Nested" (.cons (.scalar "Exists" .kBool false) .nil)) .nil)
      "nested" "exists" ⟨3, 12⟩ ⟨4, 13⟩ ⟨5, 13⟩ (.vbool true) (.vbool true)
      (by decide) (by decide)⟩

end Blueprint
